import Mathlib

/-!
Verification of the Wall Composition Engine
(src/core/c/wall_composition/arx_wall_composition.c).

Shallow embedding conventions:
* C `double` values are modelled as real numbers (`ℝ`); the C library
  functions `sqrt`, `cos`, `sin`, `atan2` are modelled by their exact
  real counterparts.
* C `int64_t` values are modelled as `ℤ`.  The spec (§4.1) makes
  "extremely large magnitudes ... the caller's responsibility to avoid
  overflow", so integer arithmetic is modelled exactly, without wrap.
* a C cast `(int64_t)x` from `double` truncates toward zero; it is
  modelled by `ctrunc` below.
* C booleans computed from real comparisons are modelled as `Prop`
  fields; counts and ids (`uint8_t`/`uint32_t`/`uint64_t`) as `ℕ`.
* fields of the C structs that no operation modelled here ever reads
  (the `material`/`fire_rating`/`notes` strings, `created_at`/
  `updated_at` timestamps, the `wall_type` and validation-state tags,
  capacity bookkeeping of growable buffers) are omitted; memory
  allocation is assumed to succeed.
-/

namespace ArxWall

noncomputable section

/-- Truncation toward zero: the semantics of a C cast from `double` to
`int64_t` (for in-range values). -/
def ctrunc (x : ℝ) : ℤ :=
  if 0 ≤ x then ⌊x⌋ else ⌈x⌉

/-- Model of `arx_unit_t`. -/
inductive ArxUnit where
  | nanometer
  | micrometer
  | millimeter
  | centimeter
  | meter
  | inch
  | foot

/-- Model of `CONVERSION_FACTORS`: nanometers per unit.  All factors are exact
integers (`1.0`, `1e3`, `1e6`, `1e7`, `1e9`, `2.54e7`, `3.048e8`). -/
def conversionFactor : ArxUnit → ℤ
  | ArxUnit.nanometer => 1
  | ArxUnit.micrometer => 1000
  | ArxUnit.millimeter => 1000000
  | ArxUnit.centimeter => 10000000
  | ArxUnit.meter => 1000000000
  | ArxUnit.inch => 25400000
  | ArxUnit.foot => 304800000

/-- Model of `convert_to_nanometers`: `(int64_t)(value * CONVERSION_FACTORS[unit])`.
The factor is integral, so the double product and truncation are exact. -/
def convert_to_nanometers (value : ℤ) (unit : ArxUnit) : ℤ :=
  value * conversionFactor unit

/-- Model of `convert_from_nanometers`: `(double)nanometers / CONVERSION_FACTORS[unit]`. -/
def convert_from_nanometers (nanometers : ℤ) (unit : ArxUnit) : ℝ :=
  (nanometers : ℝ) / (conversionFactor unit : ℝ)

/-- Model of `arx_smart_point_3d_t`: coordinates stored in nanometers plus a
display-unit tag. -/
structure SmartPoint3D where
  x : ℤ
  y : ℤ
  z : ℤ
  unit : ArxUnit

/-- Model of `arx_smart_point_3d_new`. -/
def smart_point_3d_new (x y z : ℤ) (unit : ArxUnit) : SmartPoint3D :=
  { x := convert_to_nanometers x unit
    y := convert_to_nanometers y unit
    z := convert_to_nanometers z unit
    unit := unit }

/-- Model of `arx_smart_point_3d_to_millimeters` (the three out-parameters). -/
def smart_point_3d_to_millimeters (p : SmartPoint3D) : ℝ × ℝ × ℝ :=
  (convert_from_nanometers p.x ArxUnit.millimeter,
   convert_from_nanometers p.y ArxUnit.millimeter,
   convert_from_nanometers p.z ArxUnit.millimeter)

/-- Model of `arx_smart_point_3d_distance`: nanometer-space squared sum, `sqrt`
in `double`, truncating cast back to `int64_t`, reported in mm. -/
def smart_point_3d_distance (p1 p2 : SmartPoint3D) : ℝ :=
  let dx := p1.x - p2.x
  let dy := p1.y - p2.y
  let dz := p1.z - p2.z
  convert_from_nanometers (ctrunc (Real.sqrt ((dx * dx + dy * dy + dz * dz : ℤ) : ℝ)))
    ArxUnit.millimeter

/-- Model of `arx_smart_point_3d_equals`: same nanometer coordinates and same
unit tag. -/
def smart_point_3d_equals (p1 p2 : SmartPoint3D) : Prop :=
  p1.x = p2.x ∧ p1.y = p2.y ∧ p1.z = p2.z ∧ p1.unit = p2.unit

/-- Model of `atan2(y, x)` of C99 `math.h`, for exact-zero arguments (the only
negative-zero-free case arising from real-valued inputs). -/
def atan2 (y x : ℝ) : ℝ :=
  if 0 < x then Real.arctan (y / x)
  else if x < 0 then
    (if 0 ≤ y then Real.arctan (y / x) + Real.pi else Real.arctan (y / x) - Real.pi)
  else if 0 < y then Real.pi / 2
  else if y < 0 then -(Real.pi / 2)
  else 0

/-- Model of `arx_wall_segment_t`. -/
structure WallSegment where
  id : ℕ
  start_point : SmartPoint3D
  end_point : SmartPoint3D
  length : ℝ
  height : ℝ
  thickness : ℝ
  confidence : ℝ
  orientation : ℝ
  arx_object_ids : ℕ → ℕ
  arx_object_count : ℕ

/-- Model of `arx_wall_segment_new` (zero-initialised). -/
def wall_segment_new : WallSegment :=
  { id := 0
    start_point := ⟨0, 0, 0, ArxUnit.nanometer⟩
    end_point := ⟨0, 0, 0, ArxUnit.nanometer⟩
    length := 0
    height := 0
    thickness := 0
    confidence := 0
    orientation := 0
    arx_object_ids := fun _ => 0
    arx_object_count := 0 }

/-- Model of `RAD_TO_DEG` (`180.0 / PI`). -/
def RAD_TO_DEG : ℝ := 180 / Real.pi

/-- Model of `arx_wall_segment_calculate_properties`: recompute `length`; when
positive, recompute `orientation` from `atan2(dy, dx)` in degrees,
adding 360 to negative results. -/
def wall_segment_calculate_properties (s : WallSegment) : WallSegment :=
  let len := smart_point_3d_distance s.start_point s.end_point
  if 0 < len then
    let dx : ℝ := ((s.end_point.x - s.start_point.x : ℤ) : ℝ)
    let dy : ℝ := ((s.end_point.y - s.start_point.y : ℤ) : ℝ)
    let deg := atan2 dy dx * RAD_TO_DEG
    { s with length := len, orientation := if deg < 0 then deg + 360 else deg }
  else
    { s with length := len }

/-- Model of `arx_wall_segment_set_points`. -/
def wall_segment_set_points (s : WallSegment) (start finish : SmartPoint3D) : WallSegment :=
  wall_segment_calculate_properties { s with start_point := start, end_point := finish }

/-- Model of `arx_wall_segment_add_arx_object`: append an owning-object id,
failing (without mutation) at the fixed capacity of 16. -/
def wall_segment_add_arx_object (s : WallSegment) (arx_object_id : ℕ) :
    WallSegment × Bool :=
  if 16 ≤ s.arx_object_count then (s, false)
  else
    ({ s with
        arx_object_ids := Function.update s.arx_object_ids s.arx_object_count arx_object_id
        arx_object_count := s.arx_object_count + 1 }, true)

/-- Model of `arx_curve_type_t`. -/
inductive CurveType where
  | linear
  | arc
  | bezier_quadratic
  | bezier_cubic
  | spline

/-- Model of `arx_curved_wall_segment_t`.  The C `curve_data` union is modelled
flat: the arc fields and the Bézier control points coexist, and each
constructor only writes the fields of its own variant, as the C code
only writes the active union member. -/
structure CurvedWallSegment where
  base : WallSegment
  curve_type : CurveType
  arc_radius : ℝ
  arc_start_angle : ℝ
  arc_end_angle : ℝ
  arc_center : SmartPoint3D
  bezier_control1 : SmartPoint3D
  bezier_control2 : SmartPoint3D
  bezier_control3 : SmartPoint3D
  curve_length : ℝ
  approximation_points : ℕ

/-- Model of `arx_curved_wall_segment_new` (zero-initialised, then linear curve
type and the default of 32 approximation points). -/
def curved_wall_segment_new : CurvedWallSegment :=
  { base := wall_segment_new
    curve_type := CurveType.linear
    arc_radius := 0
    arc_start_angle := 0
    arc_end_angle := 0
    arc_center := ⟨0, 0, 0, ArxUnit.nanometer⟩
    bezier_control1 := ⟨0, 0, 0, ArxUnit.nanometer⟩
    bezier_control2 := ⟨0, 0, 0, ArxUnit.nanometer⟩
    bezier_control3 := ⟨0, 0, 0, ArxUnit.nanometer⟩
    curve_length := 0
    approximation_points := 32 }

/-- Model of `arx_curved_wall_segment_set_arc`: store the arc data, clamp the
curve length to one full turn, derive the base endpoints by evaluating
the circle at the start and end angles, and recompute base properties. -/
def curved_wall_segment_set_arc (seg : CurvedWallSegment) (center : SmartPoint3D)
    (radius start_angle end_angle : ℝ) : CurvedWallSegment :=
  let angle_diff0 := |end_angle - start_angle|
  let angle_diff := if 2 * Real.pi < angle_diff0 then 2 * Real.pi else angle_diff0
  let base1 :=
    { seg.base with
        start_point :=
          ⟨center.x + ctrunc (radius * Real.cos start_angle),
           center.y + ctrunc (radius * Real.sin start_angle),
           center.z, center.unit⟩
        end_point :=
          ⟨center.x + ctrunc (radius * Real.cos end_angle),
           center.y + ctrunc (radius * Real.sin end_angle),
           center.z, center.unit⟩ }
  { seg with
      curve_type := CurveType.arc
      arc_center := center
      arc_radius := radius
      arc_start_angle := start_angle
      arc_end_angle := end_angle
      curve_length := radius * angle_diff
      base := wall_segment_calculate_properties base1 }

/-- Model of `arx_curved_wall_segment_set_bezier_quadratic`: store the two
control points, make them the base endpoints, estimate the curve length
as their straight-line distance (in mm), and recompute base properties. -/
def curved_wall_segment_set_bezier_quadratic (seg : CurvedWallSegment)
    (control1 control2 : SmartPoint3D) : CurvedWallSegment :=
  let dx : ℝ := ((control2.x - control1.x : ℤ) : ℝ)
  let dy : ℝ := ((control2.y - control1.y : ℤ) : ℝ)
  let dz : ℝ := ((control2.z - control1.z : ℤ) : ℝ)
  { seg with
      curve_type := CurveType.bezier_quadratic
      bezier_control1 := control1
      bezier_control2 := control2
      curve_length := Real.sqrt (dx * dx + dy * dy + dz * dz) / 1000000
      base := wall_segment_calculate_properties
        { seg.base with start_point := control1, end_point := control2 } }

/-- A value standing for the entries of the sampled-points buffer that
the C `default` (linear) branch of `approximate_curve` leaves
uninitialised (`malloc` without assignment). -/
def uninitialised_point : SmartPoint3D := ⟨0, 0, 0, ArxUnit.nanometer⟩

/-- Model of `arx_curved_wall_segment_approximate_curve`: sample
`max(approximation_points, 2)` points at evenly spaced parameters
`t = i / (n - 1)`.  Arc: linear interpolation of the angle.  Bézier:
Bernstein blend of `base.start_point`, the stored control points and
`base.end_point`, truncated to integer nanometers coordinatewise. -/
def curved_wall_segment_approximate_curve (seg : CurvedWallSegment) :
    List SmartPoint3D :=
  let n := max seg.approximation_points 2
  let denom : ℝ := ((n - 1 : ℕ) : ℝ)
  match seg.curve_type with
  | CurveType.arc =>
      (List.range n).map fun (i : ℕ) =>
        let t : ℝ := (i : ℝ) / denom
        let angle := seg.arc_start_angle + t * (seg.arc_end_angle - seg.arc_start_angle)
        ⟨seg.arc_center.x + ctrunc (seg.arc_radius * Real.cos angle),
         seg.arc_center.y + ctrunc (seg.arc_radius * Real.sin angle),
         seg.arc_center.z, seg.arc_center.unit⟩
  | CurveType.bezier_quadratic =>
      (List.range n).map fun (i : ℕ) =>
        let t : ℝ := (i : ℝ) / denom
        let u : ℝ := 1 - t
        let p0 := seg.base.start_point
        let p1 := seg.bezier_control1
        let p2 := seg.base.end_point
        ⟨ctrunc (u * u * p0.x + 2 * u * t * p1.x + t * t * p2.x),
         ctrunc (u * u * p0.y + 2 * u * t * p1.y + t * t * p2.y),
         ctrunc (u * u * p0.z + 2 * u * t * p1.z + t * t * p2.z),
         p0.unit⟩
  | CurveType.bezier_cubic =>
      (List.range n).map fun (i : ℕ) =>
        let t : ℝ := (i : ℝ) / denom
        let u : ℝ := 1 - t
        let p0 := seg.base.start_point
        let p1 := seg.bezier_control1
        let p2 := seg.bezier_control2
        let p3 := seg.base.end_point
        ⟨ctrunc (u * u * u * p0.x + 3 * u * u * t * p1.x + 3 * u * t * t * p2.x + t * t * t * p3.x),
         ctrunc (u * u * u * p0.y + 3 * u * u * t * p1.y + 3 * u * t * t * p2.y + t * t * t * p3.y),
         ctrunc (u * u * u * p0.z + 3 * u * u * t * p1.z + 3 * u * t * t * p2.z + t * t * t * p3.z),
         p0.unit⟩
  | _ =>
      (List.range n).map fun i =>
        if i = 0 then seg.base.start_point
        else if i = n - 1 then seg.base.end_point
        else uninitialised_point

/-- Model of `arx_wall_connection_t`.  The three C `bool` fields are computed
from real comparisons and are modelled as propositions. -/
structure WallConnection where
  segment1_id : ℕ
  segment2_id : ℕ
  connection_confidence : ℝ
  gap_distance : ℝ
  angle_difference : ℝ
  is_parallel : Prop
  is_perpendicular : Prop
  is_connected : Prop

/-- Model of `arx_wall_connection_new`. -/
def wall_connection_new (segment1_id segment2_id : ℕ) : WallConnection :=
  { segment1_id := segment1_id
    segment2_id := segment2_id
    connection_confidence := 0
    gap_distance := 0
    angle_difference := 0
    is_parallel := False
    is_perpendicular := False
    is_connected := False }

/-- Model of `arx_wall_connection_calculate_properties`: minimum endpoint-pair
gap, orientation difference reflected into `[0,180]`, the 5°/5°/50mm
classifications, and the averaged confidence with the distance term
floored at 0. -/
def wall_connection_calculate_properties (c : WallConnection)
    (seg1 seg2 : WallSegment) : WallConnection :=
  let dist1 := smart_point_3d_distance seg1.start_point seg2.start_point
  let dist2 := smart_point_3d_distance seg1.start_point seg2.end_point
  let dist3 := smart_point_3d_distance seg1.end_point seg2.start_point
  let dist4 := smart_point_3d_distance seg1.end_point seg2.end_point
  let min_distance := min (min dist1 dist2) (min dist3 dist4)
  let angle_diff0 := |seg1.orientation - seg2.orientation|
  let angle_diff := if 180 < angle_diff0 then 360 - angle_diff0 else angle_diff0
  let angle_confidence := 1 - angle_diff / 180
  let distance_confidence0 := 1 - min_distance / 1000
  let distance_confidence := if distance_confidence0 < 0 then 0 else distance_confidence0
  { c with
      gap_distance := min_distance
      angle_difference := angle_diff
      is_parallel := angle_diff < 5
      is_perpendicular := |angle_diff - 90| < 5
      is_connected := min_distance < 50
      connection_confidence := (angle_confidence + distance_confidence) / 2 }

/-- The local `min_distance` of
`arx_wall_connection_calculate_properties`: the minimum over the four
endpoint pairings. -/
def conn_min_distance (seg1 seg2 : WallSegment) : ℝ :=
  min (min (smart_point_3d_distance seg1.start_point seg2.start_point)
        (smart_point_3d_distance seg1.start_point seg2.end_point))
    (min (smart_point_3d_distance seg1.end_point seg2.start_point)
      (smart_point_3d_distance seg1.end_point seg2.end_point))

/-- The local `angle_diff` of
`arx_wall_connection_calculate_properties`: the orientation difference
reflected into `[0,180]`. -/
def conn_angle_diff (seg1 seg2 : WallSegment) : ℝ :=
  if 180 < |seg1.orientation - seg2.orientation| then
    360 - |seg1.orientation - seg2.orientation|
  else |seg1.orientation - seg2.orientation|

/-- Model of `arx_wall_structure_t` (growable member list plus memoized
statistics and 2D bounding box). -/
structure WallStructure where
  id : ℕ
  segments : List WallSegment
  start_point : SmartPoint3D
  end_point : SmartPoint3D
  total_length : ℝ
  max_height : ℝ
  avg_thickness : ℝ
  overall_confidence : ℝ

/-- Model of `arx_wall_structure_new`. -/
def wall_structure_new : WallStructure :=
  { id := 0
    segments := []
    start_point := ⟨0, 0, 0, ArxUnit.nanometer⟩
    end_point := ⟨0, 0, 0, ArxUnit.nanometer⟩
    total_length := 0
    max_height := 0
    avg_thickness := 0
    overall_confidence := 0 }

/-- Model of `arx_wall_structure_recalculate_properties`: early return on an
empty member list; otherwise one pass accumulating total length,
maximum height, mean thickness, the length-weighted confidence (zero
when the total weight is not positive), and the min/max bounding box
seeded from the first member's start point. -/
def wall_structure_recalculate_properties (st : WallStructure) : WallStructure :=
  match st.segments with
  | [] => st
  | s0 :: _ =>
      let total_length := (st.segments.map (fun s => s.length)).sum
      let max_height := st.segments.foldl (fun m s => if m < s.height then s.height else m) 0
      let total_thickness := (st.segments.map (fun s => s.thickness)).sum
      let weighted_confidence := (st.segments.map (fun s => s.confidence * s.length)).sum
      let total_weight := (st.segments.map (fun s => s.length)).sum
      let min_x := st.segments.foldl
        (fun m s => min (min m s.start_point.x) s.end_point.x) s0.start_point.x
      let max_x := st.segments.foldl
        (fun m s => max (max m s.start_point.x) s.end_point.x) s0.start_point.x
      let min_y := st.segments.foldl
        (fun m s => min (min m s.start_point.y) s.end_point.y) s0.start_point.y
      let max_y := st.segments.foldl
        (fun m s => max (max m s.start_point.y) s.end_point.y) s0.start_point.y
      { st with
          total_length := total_length
          max_height := max_height
          avg_thickness := total_thickness / (st.segments.length : ℝ)
          overall_confidence :=
            if 0 < total_weight then weighted_confidence / total_weight else 0
          start_point := ⟨min_x, min_y, s0.start_point.z, s0.start_point.unit⟩
          end_point := ⟨max_x, max_y, s0.start_point.z, s0.start_point.unit⟩ }

/-- Model of `arx_wall_structure_add_segment`: append (growth always succeeds in
the model) and recompute the statistics. -/
def wall_structure_add_segment (st : WallStructure) (seg : WallSegment) : WallStructure :=
  wall_structure_recalculate_properties { st with segments := st.segments ++ [seg] }

/-- Model of `arx_spatial_index_t`.  The quadtree is a TODO in the source: only
the flat `object_lookup` id array is ever populated, and the inserted
point is discarded. -/
structure SpatialIndex where
  max_objects_per_node : ℕ
  max_depth : ℕ
  object_lookup : List ℕ

/-- Model of `arx_spatial_index_new`. -/
def spatial_index_new (max_objects_per_node max_depth : ℕ) : SpatialIndex :=
  { max_objects_per_node := max_objects_per_node
    max_depth := max_depth
    object_lookup := [] }

/-- Model of `arx_spatial_index_insert`: appends the id to `object_lookup`; the
point argument is not stored anywhere (quadtree insertion is a TODO). -/
def spatial_index_insert (idx : SpatialIndex) (object_id : ℕ)
    (_point : SmartPoint3D) : SpatialIndex :=
  { idx with object_lookup := idx.object_lookup ++ [object_id] }

/-- Model of `arx_spatial_index_query_nearby`: returns a copy of the whole
`object_lookup` array; the query point and radius are unused
(quadtree query is a TODO). -/
def spatial_index_query_nearby (idx : SpatialIndex) (_point : SmartPoint3D)
    (_radius_mm : ℝ) : List ℕ :=
  idx.object_lookup

/-- Model of `arx_spatial_index_query_bounds`: returns a copy of the whole
`object_lookup` array; the box corners are unused (quadtree query is a
TODO). -/
def spatial_index_query_bounds (idx : SpatialIndex)
    (_min_point _max_point : SmartPoint3D) : List ℕ :=
  idx.object_lookup

/-- Model of `arx_composition_config_t`. -/
structure CompositionConfig where
  max_gap_distance : ℝ
  parallel_threshold : ℝ
  min_wall_length : ℝ
  max_wall_length : ℝ
  confidence_threshold : ℝ
  max_curve_approximation_points : ℕ
  enable_curved_walls : Bool
  enable_advanced_validation : Bool

/-- Model of `arx_composition_config_default`. -/
def composition_config_default : CompositionConfig :=
  { max_gap_distance := 50
    parallel_threshold := 5
    min_wall_length := 100
    max_wall_length := 50000
    confidence_threshold := 0.6
    max_curve_approximation_points := 32
    enable_curved_walls := true
    enable_advanced_validation := false }

/-- Model of `struct arx_wall_composition_engine`: a spatial index plus the
configuration captured at construction. -/
structure CompositionEngine where
  spatial_index : SpatialIndex
  config : CompositionConfig

/-- Model of `arx_wall_composition_engine_new` (with a non-null config). -/
def composition_engine_new (config : CompositionConfig) : CompositionEngine :=
  { spatial_index := spatial_index_new 10 8
    config := config }

/-- A default segment used to translate the C loop's in-bounds array
indexing (`segments[i]`) into a total `List.getD` lookup. -/
def default_segment : WallSegment := wall_segment_new

/-- Model of `arx_wall_composition_engine_detect_connections`: for
`i < segment_count - 1`, build a connection of the ids of segments `i`
and `i+1` and compute its properties from that pair.  Neither the
engine's spatial index nor its config is consulted. -/
def engine_detect_connections (_engine : CompositionEngine)
    (segments : List WallSegment) : List WallConnection :=
  (List.range (segments.length - 1)).map fun i =>
    let s1 := segments.getD i default_segment
    let s2 := segments.getD (i + 1) default_segment
    wall_connection_calculate_properties (wall_connection_new s1.id s2.id) s1 s2

/-! ### Helper lemmas -/

theorem ctrunc_of_nonneg {x : ℝ} (h : 0 ≤ x) : ctrunc x = ⌊x⌋ := by
  simp [ctrunc, h]

theorem ctrunc_intCast (n : ℤ) : ctrunc (n : ℝ) = n := by
  by_cases h : 0 ≤ (n : ℝ)
  · simp [ctrunc, h]
  · simp [ctrunc, h, Int.ceil_intCast]

theorem ctrunc_zero : ctrunc 0 = 0 := by
  simpa using ctrunc_intCast 0

theorem ctrunc_nonneg {x : ℝ} (h : 0 ≤ x) : 0 ≤ ctrunc x := by
  rw [ctrunc_of_nonneg h]
  exact Int.floor_nonneg.mpr h

theorem calc_props_gap_distance (c : WallConnection) (s1 s2 : WallSegment) :
    (wall_connection_calculate_properties c s1 s2).gap_distance =
      conn_min_distance s1 s2 := rfl

theorem calc_props_angle_difference (c : WallConnection) (s1 s2 : WallSegment) :
    (wall_connection_calculate_properties c s1 s2).angle_difference =
      conn_angle_diff s1 s2 := rfl

theorem calc_props_is_parallel (c : WallConnection) (s1 s2 : WallSegment) :
    (wall_connection_calculate_properties c s1 s2).is_parallel =
      (conn_angle_diff s1 s2 < 5) := rfl

theorem calc_props_is_perpendicular (c : WallConnection) (s1 s2 : WallSegment) :
    (wall_connection_calculate_properties c s1 s2).is_perpendicular =
      (|conn_angle_diff s1 s2 - 90| < 5) := rfl

theorem calc_props_confidence (c : WallConnection) (s1 s2 : WallSegment) :
    (wall_connection_calculate_properties c s1 s2).connection_confidence =
      ((1 - conn_angle_diff s1 s2 / 180) +
        (if 1 - conn_min_distance s1 s2 / 1000 < 0 then 0
         else 1 - conn_min_distance s1 s2 / 1000)) / 2 := rfl

theorem detect_connections_eq (e : CompositionEngine) (segs : List WallSegment) :
    engine_detect_connections e segs =
      (List.range (segs.length - 1)).map fun i =>
        wall_connection_calculate_properties
          (wall_connection_new (segs.getD i default_segment).id
            (segs.getD (i + 1) default_segment).id)
          (segs.getD i default_segment) (segs.getD (i + 1) default_segment) := rfl

theorem add_segment_eq (st : WallStructure) (seg : WallSegment) :
    wall_structure_add_segment st seg =
      wall_structure_recalculate_properties
        { st with segments := st.segments ++ [seg] } := rfl

theorem recalc_total_length (st : WallStructure) (s0 : WallSegment)
    (rest : List WallSegment) (h : st.segments = s0 :: rest) :
    (wall_structure_recalculate_properties st).total_length =
      (st.segments.map (fun sg => sg.length)).sum := by
  obtain ⟨sid, segs, sp, ep, tl, mh, avt, oc⟩ := st
  replace h : segs = s0 :: rest := h
  subst h
  rfl

theorem recalc_overall_confidence (st : WallStructure) (s0 : WallSegment)
    (rest : List WallSegment) (h : st.segments = s0 :: rest) :
    (wall_structure_recalculate_properties st).overall_confidence =
      (if 0 < (st.segments.map (fun sg => sg.length)).sum then
        (st.segments.map (fun sg => sg.confidence * sg.length)).sum /
          (st.segments.map (fun sg => sg.length)).sum
      else 0) := by
  obtain ⟨sid, segs, sp, ep, tl, mh, avt, oc⟩ := st
  replace h : segs = s0 :: rest := h
  subst h
  rfl

theorem set_bezier_quadratic_base (seg : CurvedWallSegment)
    (control1 control2 : SmartPoint3D) :
    (curved_wall_segment_set_bezier_quadratic seg control1 control2).base =
      wall_segment_calculate_properties
        { seg.base with start_point := control1, end_point := control2 } := rfl

theorem smart_point_3d_distance_nonneg (p1 p2 : SmartPoint3D) :
    0 ≤ smart_point_3d_distance p1 p2 := by
  unfold smart_point_3d_distance convert_from_nanometers
  have h0 : (0 : ℝ) ≤ Real.sqrt
      (((p1.x - p2.x) * (p1.x - p2.x) + (p1.y - p2.y) * (p1.y - p2.y) +
        (p1.z - p2.z) * (p1.z - p2.z) : ℤ) : ℝ) := Real.sqrt_nonneg _
  have h1 := ctrunc_nonneg h0
  have h2 : (0 : ℝ) ≤ (ctrunc (Real.sqrt
      (((p1.x - p2.x) * (p1.x - p2.x) + (p1.y - p2.y) * (p1.y - p2.y) +
        (p1.z - p2.z) * (p1.z - p2.z) : ℤ) : ℝ)) : ℝ) := by exact_mod_cast h1
  have h3 : (0 : ℝ) < (conversionFactor ArxUnit.millimeter : ℝ) := by
    simp [conversionFactor]
  positivity

theorem smart_point_3d_distance_comm (p1 p2 : SmartPoint3D) :
    smart_point_3d_distance p1 p2 = smart_point_3d_distance p2 p1 := by
  simp only [smart_point_3d_distance]
  have h : (p1.x - p2.x) * (p1.x - p2.x) + (p1.y - p2.y) * (p1.y - p2.y) +
      (p1.z - p2.z) * (p1.z - p2.z) =
      (p2.x - p1.x) * (p2.x - p1.x) + (p2.y - p1.y) * (p2.y - p1.y) +
      (p2.z - p1.z) * (p2.z - p1.z) := by ring
  rw [h]

theorem conn_min_distance_comm (s1 s2 : WallSegment) :
    conn_min_distance s1 s2 = conn_min_distance s2 s1 := by
  unfold conn_min_distance
  rw [smart_point_3d_distance_comm s1.start_point s2.start_point,
    smart_point_3d_distance_comm s1.start_point s2.end_point,
    smart_point_3d_distance_comm s1.end_point s2.start_point,
    smart_point_3d_distance_comm s1.end_point s2.end_point,
    min_min_min_comm]

theorem conn_angle_diff_comm (s1 s2 : WallSegment) :
    conn_angle_diff s1 s2 = conn_angle_diff s2 s1 := by
  unfold conn_angle_diff
  rw [abs_sub_comm s1.orientation s2.orientation]

theorem one_le_sq_of_ne_zero {n : ℤ} (h : n ≠ 0) : 1 ≤ n * n := by
  have h1 : 1 ≤ |n| := Int.one_le_abs h
  calc (1 : ℤ) = 1 * 1 := by ring
  _ ≤ |n| * |n| := by exact mul_le_mul h1 h1 (by norm_num) (abs_nonneg n)
  _ = n * n := abs_mul_abs_self n

/-- If two points differ in some nanometer coordinate, the computed
distance is strictly positive (the squared sum is at least 1, so the
truncated square root is at least 1 nanometer). -/
theorem smart_point_3d_distance_pos {p1 p2 : SmartPoint3D}
    (h : ¬(p1.x = p2.x ∧ p1.y = p2.y ∧ p1.z = p2.z)) :
    0 < smart_point_3d_distance p1 p2 := by
  have hsq : (1 : ℤ) ≤ (p1.x - p2.x) * (p1.x - p2.x) + (p1.y - p2.y) * (p1.y - p2.y) +
      (p1.z - p2.z) * (p1.z - p2.z) := by
    have hx : 0 ≤ (p1.x - p2.x) * (p1.x - p2.x) := mul_self_nonneg _
    have hy : 0 ≤ (p1.y - p2.y) * (p1.y - p2.y) := mul_self_nonneg _
    have hz : 0 ≤ (p1.z - p2.z) * (p1.z - p2.z) := mul_self_nonneg _
    rcases not_and_or.mp h with hne | hrest
    · have := one_le_sq_of_ne_zero (sub_ne_zero.mpr hne)
      nlinarith
    · rcases not_and_or.mp hrest with hne | hne
      · have := one_le_sq_of_ne_zero (sub_ne_zero.mpr hne)
        nlinarith
      · have := one_le_sq_of_ne_zero (sub_ne_zero.mpr hne)
        nlinarith
  unfold smart_point_3d_distance convert_from_nanometers
  have hsqrt : (1 : ℝ) ≤ Real.sqrt
      (((p1.x - p2.x) * (p1.x - p2.x) + (p1.y - p2.y) * (p1.y - p2.y) +
        (p1.z - p2.z) * (p1.z - p2.z) : ℤ) : ℝ) := by
    have h1 : (1 : ℝ) ≤ (((p1.x - p2.x) * (p1.x - p2.x) + (p1.y - p2.y) * (p1.y - p2.y) +
        (p1.z - p2.z) * (p1.z - p2.z) : ℤ) : ℝ) := by exact_mod_cast hsq
    calc (1 : ℝ) = Real.sqrt 1 := Real.sqrt_one.symm
    _ ≤ _ := Real.sqrt_le_sqrt h1
  have hfloor : (1 : ℤ) ≤ ctrunc (Real.sqrt
      (((p1.x - p2.x) * (p1.x - p2.x) + (p1.y - p2.y) * (p1.y - p2.y) +
        (p1.z - p2.z) * (p1.z - p2.z) : ℤ) : ℝ)) := by
    rw [ctrunc_of_nonneg (Real.sqrt_nonneg _)]
    exact Int.le_floor.mpr (by exact_mod_cast hsqrt)
  have hc : (1 : ℝ) ≤ (ctrunc (Real.sqrt
      (((p1.x - p2.x) * (p1.x - p2.x) + (p1.y - p2.y) * (p1.y - p2.y) +
        (p1.z - p2.z) * (p1.z - p2.z) : ℤ) : ℝ)) : ℝ) := by exact_mod_cast hfloor
  have h3 : (0 : ℝ) < (conversionFactor ArxUnit.millimeter : ℝ) := by
    simp [conversionFactor]
  exact div_pos (lt_of_lt_of_le one_pos hc) h3

/-- The C `atan2` always lands in `(-π, π]`. -/
theorem atan2_mem_Ioc (y x : ℝ) :
    -Real.pi < atan2 y x ∧ atan2 y x ≤ Real.pi := by
  have hpi : 0 < Real.pi := Real.pi_pos
  have harctan_lt := fun z => Real.arctan_lt_pi_div_two z
  have hlt_arctan := fun z => Real.neg_pi_div_two_lt_arctan z
  unfold atan2
  split_ifs with h1 h2 h3 h4 h5
  · constructor
    · linarith [hlt_arctan (y / x)]
    · linarith [harctan_lt (y / x)]
  · -- x < 0, 0 ≤ y : arctan (y/x) ≤ 0, so the sum is in (π/2, π]
    have hdiv : y / x ≤ 0 := div_nonpos_iff.mpr (Or.inl ⟨h3, le_of_lt h2⟩)
    have harc : Real.arctan (y / x) ≤ 0 := by
      rw [← Real.arctan_zero]
      exact Real.arctan_strictMono.monotone hdiv
    constructor
    · linarith [hlt_arctan (y / x)]
    · linarith
  · -- x < 0, y < 0 : arctan (y/x) > 0, so the difference is in (-π, -π/2)
    have hdiv : 0 < y / x := div_pos_iff.mpr (Or.inr ⟨by linarith, h2⟩)
    have harc : 0 < Real.arctan (y / x) := by
      rw [← Real.arctan_zero]
      exact Real.arctan_strictMono hdiv
    constructor
    · linarith
    · linarith [harctan_lt (y / x)]
  · constructor <;> linarith
  · constructor <;> linarith
  · constructor <;> linarith

/-- The orientation normalisation used by
`wall_segment_calculate_properties`, as a standalone function of the
endpoint deltas. -/
def orientation_of_delta (dy dx : ℝ) : ℝ :=
  let deg := atan2 dy dx * RAD_TO_DEG
  if deg < 0 then deg + 360 else deg

theorem orientation_of_delta_mem (dy dx : ℝ) :
    0 ≤ orientation_of_delta dy dx ∧ orientation_of_delta dy dx < 360 := by
  have hpi : 0 < Real.pi := Real.pi_pos
  obtain ⟨hlo, hhi⟩ := atan2_mem_Ioc dy dx
  have hscale : 0 < RAD_TO_DEG := by
    unfold RAD_TO_DEG
    positivity
  have hπ : Real.pi * RAD_TO_DEG = 180 := by
    unfold RAD_TO_DEG
    field_simp
  have hdeg_hi : atan2 dy dx * RAD_TO_DEG ≤ 180 := by
    have := mul_le_mul_of_nonneg_right hhi (le_of_lt hscale)
    linarith
  have hdeg_lo : -180 < atan2 dy dx * RAD_TO_DEG := by
    have := mul_lt_mul_of_pos_right hlo hscale
    have hπn : -Real.pi * RAD_TO_DEG = -180 := by rw [neg_mul, hπ]
    linarith
  simp only [orientation_of_delta]
  split_ifs with h
  · constructor <;> linarith
  · constructor <;> linarith

/-! ### Claim theorems -/

/-- C5: connection computation is symmetric: for every pair of segments
`s1` and `s2`, computing the connection properties of `(s1,s2)` and of
`(s2,s1)` yields identical `gap_distance`, `angle_difference`, and
`connection_confidence`. -/
theorem claim_C5_connection_symmetry (c : WallConnection) (s1 s2 : WallSegment) :
    (wall_connection_calculate_properties c s1 s2).gap_distance =
      (wall_connection_calculate_properties c s2 s1).gap_distance ∧
    (wall_connection_calculate_properties c s1 s2).angle_difference =
      (wall_connection_calculate_properties c s2 s1).angle_difference ∧
    (wall_connection_calculate_properties c s1 s2).connection_confidence =
      (wall_connection_calculate_properties c s2 s1).connection_confidence := by
  rw [calc_props_gap_distance c s1 s2, calc_props_gap_distance c s2 s1,
    calc_props_angle_difference c s1 s2, calc_props_angle_difference c s2 s1,
    calc_props_confidence c s1 s2, calc_props_confidence c s2 s1,
    conn_min_distance_comm s1 s2, conn_angle_diff_comm s1 s2]
  exact ⟨rfl, rfl, rfl⟩

/-- C8: appending an owning-object id to a wall segment succeeds while
the segment holds fewer than 16 ids (the new id is stored at the old
count and the count grows by one); for a segment already holding 16 (or
more) ids, the append reports failure and leaves the stored ids and the
count unchanged. -/
theorem claim_C8_object_capacity (s : WallSegment) (oid : ℕ) :
    (s.arx_object_count < 16 →
      (wall_segment_add_arx_object s oid).2 = true ∧
      (wall_segment_add_arx_object s oid).1.arx_object_count = s.arx_object_count + 1 ∧
      (wall_segment_add_arx_object s oid).1.arx_object_ids s.arx_object_count = oid ∧
      ∀ j : ℕ, j ≠ s.arx_object_count →
        (wall_segment_add_arx_object s oid).1.arx_object_ids j = s.arx_object_ids j) ∧
    (16 ≤ s.arx_object_count →
      wall_segment_add_arx_object s oid = (s, false)) := by
  constructor
  · intro hlt
    have hc : ¬ 16 ≤ s.arx_object_count := not_le.mpr hlt
    refine ⟨?_, ?_, ?_, ?_⟩
    · simp [wall_segment_add_arx_object, hc]
    · simp [wall_segment_add_arx_object, hc]
    · simp [wall_segment_add_arx_object, hc]
    · intro j hj
      simp [wall_segment_add_arx_object, hc, Function.update_noteq hj]
  · intro hge
    simp [wall_segment_add_arx_object, hge]

/-- C8 witness: at a segment already holding 16 ids the append fails
and returns the segment unchanged, and on a fresh segment (0 ids) it
succeeds. -/
theorem claim_C8_object_capacity_witness :
    (wall_segment_add_arx_object
        { wall_segment_new with arx_object_count := 16 } 7 =
      ({ wall_segment_new with arx_object_count := 16 }, false)) ∧
    (wall_segment_add_arx_object wall_segment_new 7).2 = true := by
  constructor
  · exact (claim_C8_object_capacity
      { wall_segment_new with arx_object_count := 16 } 7).2 (by norm_num)
  · exact ((claim_C8_object_capacity wall_segment_new 7).1 (by
      simp [wall_segment_new])).1

/-- Following the spec's words for the radius query of §4.6 ("objects
within radius of a point"): the inserted point lies within `radius_mm`
of the query point. -/
def spec_within_radius (p query : SmartPoint3D) (radius_mm : ℝ) : Prop :=
  smart_point_3d_distance p query ≤ radius_mm

/-- Following the spec's words for the bounds query of §4.6 ("objects
within an axis-aligned box"): the inserted point lies inside the box
spanned by the two corner points. -/
def spec_within_bounds (p min_point max_point : SmartPoint3D) : Prop :=
  min_point.x ≤ p.x ∧ p.x ≤ max_point.x ∧
  min_point.y ≤ p.y ∧ p.y ≤ max_point.y ∧
  min_point.z ≤ p.z ∧ p.z ≤ max_point.z

theorem spatial_index_foldl_lookup (inserts : List (ℕ × SmartPoint3D))
    (idx : SpatialIndex) :
    (inserts.foldl (fun i pr => spatial_index_insert i pr.1 pr.2) idx).object_lookup =
      idx.object_lookup ++ inserts.map Prod.fst := by
  induction inserts generalizing idx with
  | nil => simp
  | cons hd tl ih =>
      rw [List.foldl_cons, ih]
      simp [spatial_index_insert]

/-- Evaluate the distance when the nanometer-space squared sum is a
perfect square `k * k`. -/
theorem smart_point_3d_distance_eval {p q : SmartPoint3D} {k : ℤ} (hk : 0 ≤ k)
    (h : (p.x - q.x) * (p.x - q.x) + (p.y - q.y) * (p.y - q.y) +
        (p.z - q.z) * (p.z - q.z) = k * k) :
    smart_point_3d_distance p q = (k : ℝ) / 1000000 := by
  simp only [smart_point_3d_distance, convert_from_nanometers]
  rw [h]
  have h1 : ((k * k : ℤ) : ℝ) = (k : ℝ) ^ 2 := by push_cast; ring
  rw [h1, Real.sqrt_sq (by exact_mod_cast hk), ctrunc_intCast k]
  norm_num [conversionFactor]

/-- C3 amended: in the reference implementation both spatial-index
query shapes ignore the query geometry (the quadtree is a TODO stub):
for every sequence of insertions, a radius query and a bounds query
each return the ids of all inserted objects, in insertion order. -/
theorem claim_C3_spatial_index_queries (inserts : List (ℕ × SmartPoint3D))
    (m d : ℕ) (q : SmartPoint3D) (r : ℝ) (lo hi : SmartPoint3D) :
    spatial_index_query_nearby
        (inserts.foldl (fun idx pr => spatial_index_insert idx pr.1 pr.2)
          (spatial_index_new m d)) q r = inserts.map Prod.fst ∧
    spatial_index_query_bounds
        (inserts.foldl (fun idx pr => spatial_index_insert idx pr.1 pr.2)
          (spatial_index_new m d)) lo hi = inserts.map Prod.fst := by
  constructor
  · rw [spatial_index_query_nearby, spatial_index_foldl_lookup]
    simp [spatial_index_new]
  · rw [spatial_index_query_bounds, spatial_index_foldl_lookup]
    simp [spatial_index_new]

/-- C3 counterexample: after inserting object 1 at the origin, a
radius-1mm query at a point 1000mm away still returns object 1, and a
bounds query with a box not containing the origin still returns object
1 — refuting "returns exactly the ids of the objects whose points lie
within the radius / inside the box". -/
theorem claim_C3_counterexample :
    (spatial_index_query_nearby
        (spatial_index_insert (spatial_index_new 10 8) 1 ⟨0, 0, 0, ArxUnit.nanometer⟩)
        ⟨1000000000, 0, 0, ArxUnit.nanometer⟩ 1 = [1]) ∧
    ¬ spec_within_radius ⟨0, 0, 0, ArxUnit.nanometer⟩
        ⟨1000000000, 0, 0, ArxUnit.nanometer⟩ 1 ∧
    (spatial_index_query_bounds
        (spatial_index_insert (spatial_index_new 10 8) 1 ⟨0, 0, 0, ArxUnit.nanometer⟩)
        ⟨5, 5, 5, ArxUnit.nanometer⟩ ⟨6, 6, 6, ArxUnit.nanometer⟩ = [1]) ∧
    ¬ spec_within_bounds ⟨0, 0, 0, ArxUnit.nanometer⟩ ⟨5, 5, 5, ArxUnit.nanometer⟩
        ⟨6, 6, 6, ArxUnit.nanometer⟩ := by
  refine ⟨?_, ?_, ?_, ?_⟩
  · simp [spatial_index_query_nearby, spatial_index_insert, spatial_index_new]
  · have hd : smart_point_3d_distance ⟨0, 0, 0, ArxUnit.nanometer⟩
        ⟨1000000000, 0, 0, ArxUnit.nanometer⟩ = ((1000000000 : ℤ) : ℝ) / 1000000 := by
      apply smart_point_3d_distance_eval (by norm_num)
      norm_num
    simp only [spec_within_radius, hd]
    norm_num
  · simp [spatial_index_query_bounds, spatial_index_insert, spatial_index_new]
  · norm_num [spec_within_bounds]

/-- C9: for every engine and input list of segments, connection
detection produces `n - 1` connections when `n ≥ 2` and none when
`n < 2`, and the `i`-th connection carries the ids of input segments
`i` and `i+1` with properties computed from exactly that pair. -/
theorem claim_C9_detect_adjacent_pairs (e : CompositionEngine)
    (segs : List WallSegment) :
    (2 ≤ segs.length → (engine_detect_connections e segs).length = segs.length - 1) ∧
    (segs.length < 2 → (engine_detect_connections e segs).length = 0) ∧
    (∀ (i : ℕ) (hi : i + 1 < segs.length),
      (engine_detect_connections e segs)[i]? =
        some (wall_connection_calculate_properties
          (wall_connection_new segs[i].id segs[i + 1].id) segs[i] segs[i + 1])) := by
  refine ⟨?_, ?_, ?_⟩
  · intro _
    rw [detect_connections_eq]
    simp
  · intro h2
    rw [detect_connections_eq]
    simp only [List.length_map, List.length_range]
    omega
  · intro i hi
    have hi1 : i < segs.length := by omega
    have hr : i < segs.length - 1 := by omega
    have hg1 : segs.getD i default_segment = segs[i] := by
      rw [List.getD_eq_getElem?_getD, List.getElem?_eq_getElem hi1]
      rfl
    have hg2 : segs.getD (i + 1) default_segment = segs[i + 1] := by
      rw [List.getD_eq_getElem?_getD, List.getElem?_eq_getElem hi]
      rfl
    rw [detect_connections_eq, List.getElem?_map, List.getElem?_range hr]
    simp only [Option.map_some']
    rw [hg1, hg2]

/-- C9 witness: on a concrete two-segment input, detection yields
exactly one connection, namely the one computed from that pair. -/
theorem claim_C9_detect_adjacent_pairs_witness :
    (engine_detect_connections (composition_engine_new composition_config_default)
        [wall_segment_new, { wall_segment_new with id := 3 }]).length = 1 ∧
    (engine_detect_connections (composition_engine_new composition_config_default)
        [wall_segment_new, { wall_segment_new with id := 3 }])[0]? =
      some (wall_connection_calculate_properties
        (wall_connection_new
          ([wall_segment_new, { wall_segment_new with id := 3 }] : List WallSegment)[0].id
          ([wall_segment_new, { wall_segment_new with id := 3 }] : List WallSegment)[0 + 1].id)
        ([wall_segment_new, { wall_segment_new with id := 3 }] : List WallSegment)[0]
        ([wall_segment_new, { wall_segment_new with id := 3 }] : List WallSegment)[0 + 1]) := by
  have h := claim_C9_detect_adjacent_pairs
    (composition_engine_new composition_config_default)
    [wall_segment_new, { wall_segment_new with id := 3 }]
  exact ⟨h.1 (by norm_num), h.2.2 0 (by norm_num)⟩

theorem conf_formula_aux (md ad0 : ℝ) (hmd : 0 ≤ md) (had0 : 0 ≤ ad0)
    (hlt : ad0 < 360) :
    ((1 - (if 180 < ad0 then 360 - ad0 else ad0) / 180) +
        (if 1 - md / 1000 < 0 then 0 else 1 - md / 1000)) / 2 =
      ((1 - (if 180 < ad0 then 360 - ad0 else ad0) / 180) +
        max 0 (1 - md / 1000)) / 2 ∧
    0 ≤ ((1 - (if 180 < ad0 then 360 - ad0 else ad0) / 180) +
        (if 1 - md / 1000 < 0 then 0 else 1 - md / 1000)) / 2 ∧
    ((1 - (if 180 < ad0 then 360 - ad0 else ad0) / 180) +
        (if 1 - md / 1000 < 0 then 0 else 1 - md / 1000)) / 2 ≤ 1 := by
  have hclamp : (if 1 - md / 1000 < 0 then 0 else 1 - md / 1000)
      = max 0 (1 - md / 1000) := by
    rcases lt_or_le (1 - md / 1000) 0 with h | h
    · rw [if_pos h, max_eq_left (le_of_lt h)]
    · rw [if_neg (not_lt.mpr h), max_eq_right h]
  have had : 0 ≤ (if 180 < ad0 then 360 - ad0 else ad0) ∧
      (if 180 < ad0 then 360 - ad0 else ad0) ≤ 180 := by
    split_ifs with h
    · constructor <;> linarith
    · constructor <;> linarith
  have hdc : 0 ≤ (if 1 - md / 1000 < 0 then 0 else 1 - md / 1000) ∧
      (if 1 - md / 1000 < 0 then 0 else 1 - md / 1000) ≤ 1 := by
    split_ifs with h
    · norm_num
    · have hq : 0 ≤ md / 1000 := by positivity
      constructor <;> linarith
  obtain ⟨ha0, ha180⟩ := had
  obtain ⟨hd0, hd1⟩ := hdc
  have hdiv1 : (if 180 < ad0 then 360 - ad0 else ad0) / 180 ≤ 1 := by
    rw [div_le_one (by norm_num)]
    linarith
  have hdiv0 : 0 ≤ (if 180 < ad0 then 360 - ad0 else ad0) / 180 :=
    div_nonneg ha0 (by norm_num)
  exact ⟨by rw [hclamp], by linarith, by linarith⟩

/-- C4: for segments whose orientations satisfy the data-model
invariant (degrees in `[0,360)`), the computed `connection_confidence`
equals the equal-weight average of `1 - angle_difference/180` and
`max 0 (1 - gap_distance/1000)`, and it always lies in `[0,1]`. -/
theorem claim_C4_confidence_formula_and_bounds (c : WallConnection)
    (s1 s2 : WallSegment)
    (h1lo : 0 ≤ s1.orientation) (h1hi : s1.orientation < 360)
    (h2lo : 0 ≤ s2.orientation) (h2hi : s2.orientation < 360) :
    (wall_connection_calculate_properties c s1 s2).connection_confidence =
      ((1 - (wall_connection_calculate_properties c s1 s2).angle_difference / 180) +
        max 0 (1 - (wall_connection_calculate_properties c s1 s2).gap_distance / 1000)) / 2 ∧
    0 ≤ (wall_connection_calculate_properties c s1 s2).connection_confidence ∧
    (wall_connection_calculate_properties c s1 s2).connection_confidence ≤ 1 := by
  have hmd : 0 ≤ conn_min_distance s1 s2 :=
    le_min (le_min (smart_point_3d_distance_nonneg _ _) (smart_point_3d_distance_nonneg _ _))
      (le_min (smart_point_3d_distance_nonneg _ _) (smart_point_3d_distance_nonneg _ _))
  have had0 : 0 ≤ |s1.orientation - s2.orientation| := abs_nonneg _
  have hlt : |s1.orientation - s2.orientation| < 360 :=
    abs_sub_lt_iff.mpr ⟨by linarith, by linarith⟩
  rw [calc_props_confidence, calc_props_angle_difference, calc_props_gap_distance]
  exact conf_formula_aux (conn_min_distance s1 s2) |s1.orientation - s2.orientation|
    hmd had0 hlt

/-- C4 witness: the formula and the bounds hold at the pair of freshly
constructed segments (both orientations are 0). -/
theorem claim_C4_confidence_formula_and_bounds_witness :
    0 ≤ (wall_connection_calculate_properties (wall_connection_new 0 0)
        wall_segment_new wall_segment_new).connection_confidence ∧
    (wall_connection_calculate_properties (wall_connection_new 0 0)
        wall_segment_new wall_segment_new).connection_confidence ≤ 1 := by
  have h := claim_C4_confidence_formula_and_bounds (wall_connection_new 0 0)
    wall_segment_new wall_segment_new
    (by norm_num [wall_segment_new]) (by norm_num [wall_segment_new])
    (by norm_num [wall_segment_new]) (by norm_num [wall_segment_new])
  exact ⟨h.2.1, h.2.2⟩

theorem calculate_properties_of_pos {s : WallSegment}
    (hpos : 0 < smart_point_3d_distance s.start_point s.end_point) :
    wall_segment_calculate_properties s =
      { s with
          length := smart_point_3d_distance s.start_point s.end_point
          orientation := orientation_of_delta
            ((s.end_point.y - s.start_point.y : ℤ) : ℝ)
            ((s.end_point.x - s.start_point.x : ℤ) : ℝ) } := by
  simp only [wall_segment_calculate_properties, orientation_of_delta]
  rw [if_pos hpos]

theorem calculate_properties_of_nonpos {s : WallSegment}
    (hnpos : ¬ 0 < smart_point_3d_distance s.start_point s.end_point) :
    wall_segment_calculate_properties s =
      { s with length := smart_point_3d_distance s.start_point s.end_point } := by
  simp only [wall_segment_calculate_properties]
  rw [if_neg hnpos]

theorem atan2_zero_of_pos {x : ℝ} (hx : 0 < x) : atan2 0 x = 0 := by
  simp [atan2, hx, Real.arctan_zero]

theorem orientation_of_delta_zero_of_pos {x : ℝ} (hx : 0 < x) :
    orientation_of_delta 0 x = 0 := by
  simp [orientation_of_delta, atan2_zero_of_pos hx]

theorem atan2_diag_of_pos {x : ℝ} (hx : 0 < x) : atan2 x x = Real.pi / 4 := by
  simp only [atan2]
  rw [if_pos hx, div_self (ne_of_gt hx), Real.arctan_one]

theorem orientation_of_delta_diag_of_pos {x : ℝ} (hx : 0 < x) :
    orientation_of_delta x x = 45 := by
  have h1 : Real.pi / 4 * RAD_TO_DEG = 45 := by
    unfold RAD_TO_DEG
    have hp : Real.pi ≠ 0 := Real.pi_ne_zero
    field_simp
    ring
  simp only [orientation_of_delta, atan2_diag_of_pos hx, h1]
  rw [if_neg (by norm_num)]

/-- A concrete segment from the origin to (10,0,0) nm; its computed
orientation is 0 degrees. -/
def seg_east : WallSegment :=
  wall_segment_set_points wall_segment_new ⟨0, 0, 0, ArxUnit.nanometer⟩
    ⟨10, 0, 0, ArxUnit.nanometer⟩

/-- A concrete segment from the origin to (10,10,0) nm; its computed
orientation is 45 degrees. -/
def seg_diag : WallSegment :=
  wall_segment_set_points wall_segment_new ⟨0, 0, 0, ArxUnit.nanometer⟩
    ⟨10, 10, 0, ArxUnit.nanometer⟩

theorem seg_east_orientation : seg_east.orientation = 0 := by
  rw [seg_east, wall_segment_set_points,
    calculate_properties_of_pos (smart_point_3d_distance_pos (by norm_num))]
  norm_num
  exact orientation_of_delta_zero_of_pos (by norm_num)

theorem seg_diag_orientation : seg_diag.orientation = 45 := by
  rw [seg_diag, wall_segment_set_points,
    calculate_properties_of_pos (smart_point_3d_distance_pos (by norm_num))]
  norm_num
  exact orientation_of_delta_diag_of_pos (by norm_num)

/-- C2 amended: the parallel/perpendicular classification uses a
hardcoded 5 degree tolerance, not the engine's configured
`parallel_threshold` (which is never consulted; connection detection is
independent of the engine value entirely): `is_parallel` holds iff the
computed `angle_difference` is below 5, and `is_perpendicular` iff
`|angle_difference - 90|` is below 5.  The claim's equivalences with
`parallel_threshold` hold exactly for the default `T = 5`. -/
theorem claim_C2_hardcoded_five_degree_threshold (e1 e2 : CompositionEngine)
    (segs : List WallSegment) (c : WallConnection) (s1 s2 : WallSegment) :
    engine_detect_connections e1 segs = engine_detect_connections e2 segs ∧
    ((wall_connection_calculate_properties c s1 s2).is_parallel ↔
      (wall_connection_calculate_properties c s1 s2).angle_difference < 5) ∧
    ((wall_connection_calculate_properties c s1 s2).is_perpendicular ↔
      |(wall_connection_calculate_properties c s1 s2).angle_difference - 90| < 5) := by
  refine ⟨rfl, ?_, ?_⟩
  · rw [calc_props_is_parallel, calc_props_angle_difference]
  · rw [calc_props_is_perpendicular, calc_props_angle_difference]

/-- C2 counterexample: with an engine configured with
`parallel_threshold = 50`, the pair (orientation 0°, orientation 45°)
has `angle_difference = 45 < 50`, yet the computed connection is *not*
classified parallel (the code compares against the hardcoded 5). -/
theorem claim_C2_counterexample :
    (composition_engine_new
        { composition_config_default with parallel_threshold := 50 }).config.parallel_threshold
      = 50 ∧
    engine_detect_connections
        (composition_engine_new
          { composition_config_default with parallel_threshold := 50 })
        [seg_east, seg_diag] =
      [wall_connection_calculate_properties
        (wall_connection_new seg_east.id seg_diag.id) seg_east seg_diag] ∧
    (wall_connection_calculate_properties
        (wall_connection_new seg_east.id seg_diag.id) seg_east seg_diag).angle_difference
      = 45 ∧
    (45 : ℝ) < 50 ∧
    ¬ (wall_connection_calculate_properties
        (wall_connection_new seg_east.id seg_diag.id) seg_east seg_diag).is_parallel := by
  have habs45 : |seg_east.orientation - seg_diag.orientation| = 45 := by
    rw [seg_east_orientation, seg_diag_orientation,
      show (0 : ℝ) - 45 = -45 by norm_num, abs_neg]
    norm_num
  have hang45 : conn_angle_diff seg_east seg_diag = 45 := by
    unfold conn_angle_diff
    rw [habs45, if_neg (by norm_num)]
  refine ⟨rfl, rfl, ?_, by norm_num, ?_⟩
  · rw [calc_props_angle_difference, hang45]
  · rw [calc_props_is_parallel, hang45]
    norm_num

/-- C6 amended: for every wall segment whose two endpoints differ in
some nanometer coordinate (not merely in the unit tag), setting the
endpoints recomputes the orientation to `atan2(dy, dx)` converted to
degrees with 360 added to negative results, a value in `[0,360)`;
moreover every wall segment operation preserves orientation in
`[0,360)` (a fresh segment starts at 0; setting endpoints either
recomputes into `[0,360)` or, when the coordinates coincide, keeps the
previous orientation; appending an owning-object id never touches it). -/
theorem claim_C6_orientation_range (s : WallSegment) (p q : SmartPoint3D)
    (hpq : ¬(p.x = q.x ∧ p.y = q.y ∧ p.z = q.z)) :
    ((wall_segment_set_points s p q).orientation =
        orientation_of_delta ((q.y - p.y : ℤ) : ℝ) ((q.x - p.x : ℤ) : ℝ) ∧
      0 ≤ (wall_segment_set_points s p q).orientation ∧
      (wall_segment_set_points s p q).orientation < 360) ∧
    (0 ≤ wall_segment_new.orientation ∧ wall_segment_new.orientation < 360) ∧
    (∀ (s2 : WallSegment) (p2 q2 : SmartPoint3D),
      0 ≤ s2.orientation → s2.orientation < 360 →
      0 ≤ (wall_segment_set_points s2 p2 q2).orientation ∧
      (wall_segment_set_points s2 p2 q2).orientation < 360) ∧
    (∀ (s3 : WallSegment) (oid : ℕ),
      (wall_segment_add_arx_object s3 oid).1.orientation = s3.orientation) := by
  refine ⟨?_, ?_, ?_, ?_⟩
  · have hpos : 0 < smart_point_3d_distance p q := smart_point_3d_distance_pos hpq
    rw [wall_segment_set_points, calculate_properties_of_pos (by simpa using hpos)]
    exact ⟨rfl, orientation_of_delta_mem _ _⟩
  · simp [wall_segment_new]
  · intro s2 p2 q2 hlo hhi
    rw [wall_segment_set_points]
    rcases lt_or_le 0 (smart_point_3d_distance p2 q2) with hpos | hnpos
    · rw [calculate_properties_of_pos (by simpa using hpos)]
      exact orientation_of_delta_mem _ _
    · rw [calculate_properties_of_nonpos (by simpa using not_lt.mpr hnpos)]
      exact ⟨hlo, hhi⟩
  · intro s3 oid
    unfold wall_segment_add_arx_object
    split_ifs <;> rfl

/-- C6 witness: setting a fresh segment's endpoints to the origin and
(10,0,0) nm yields an orientation in `[0,360)` (namely the atan2
formula's value). -/
theorem claim_C6_orientation_range_witness :
    0 ≤ (wall_segment_set_points wall_segment_new ⟨0, 0, 0, ArxUnit.nanometer⟩
        ⟨10, 0, 0, ArxUnit.nanometer⟩).orientation ∧
    (wall_segment_set_points wall_segment_new ⟨0, 0, 0, ArxUnit.nanometer⟩
        ⟨10, 0, 0, ArxUnit.nanometer⟩).orientation < 360 :=
  (claim_C6_orientation_range wall_segment_new ⟨0, 0, 0, ArxUnit.nanometer⟩
    ⟨10, 0, 0, ArxUnit.nanometer⟩ (by norm_num)).1.2

/-- C6 counterexample: two endpoints that are *not identical* in the
sense of the point-equality contract (equal coordinates, different unit
tags) give a zero length, so the orientation is **not** recomputed: a
segment previously oriented at 45° keeps 45°, while the claim's atan2
formula would give 0°. -/
theorem claim_C6_counterexample :
    ¬ smart_point_3d_equals ⟨0, 0, 0, ArxUnit.nanometer⟩ ⟨0, 0, 0, ArxUnit.millimeter⟩ ∧
    (wall_segment_set_points seg_diag ⟨0, 0, 0, ArxUnit.nanometer⟩
        ⟨0, 0, 0, ArxUnit.millimeter⟩).orientation = 45 ∧
    orientation_of_delta
        ((((⟨0, 0, 0, ArxUnit.millimeter⟩ : SmartPoint3D)).y -
            (((⟨0, 0, 0, ArxUnit.nanometer⟩ : SmartPoint3D)).y) : ℤ) : ℝ)
        ((((⟨0, 0, 0, ArxUnit.millimeter⟩ : SmartPoint3D)).x -
            (((⟨0, 0, 0, ArxUnit.nanometer⟩ : SmartPoint3D)).x) : ℤ) : ℝ) = 0 ∧
    (45 : ℝ) ≠ 0 := by
  refine ⟨?_, ?_, ?_, by norm_num⟩
  · intro h
    exact ArxUnit.noConfusion h.2.2.2
  · have hd : smart_point_3d_distance (⟨0, 0, 0, ArxUnit.nanometer⟩ : SmartPoint3D)
        ⟨0, 0, 0, ArxUnit.millimeter⟩ = ((0 : ℤ) : ℝ) / 1000000 :=
      smart_point_3d_distance_eval (by norm_num) (by norm_num)
    have hnpos : ¬ 0 < smart_point_3d_distance
        (⟨0, 0, 0, ArxUnit.nanometer⟩ : SmartPoint3D) ⟨0, 0, 0, ArxUnit.millimeter⟩ := by
      rw [hd]
      norm_num
    rw [wall_segment_set_points, calculate_properties_of_nonpos (by simpa using hnpos)]
    exact seg_diag_orientation
  · norm_num
    simp [orientation_of_delta, atan2]

/-- A concrete 1000mm member with confidence 0.8 for the claim's
scenario. -/
def c7_segA : WallSegment := { wall_segment_new with length := 1000, confidence := 0.8 }

/-- A concrete 1000mm member with confidence 0.9 for the claim's
scenario. -/
def c7_segB : WallSegment := { wall_segment_new with length := 1000, confidence := 0.9 }

/-- The structure built by adding the two members in turn. -/
def c7_structure : WallStructure :=
  wall_structure_add_segment (wall_structure_add_segment wall_structure_new c7_segA) c7_segB

/-- C7: for every wall structure with at least one member segment
(whose lengths are nonnegative, as computed lengths always are), the
recomputed `overall_confidence` equals the length-weighted mean
`Σ(confidence·length) / Σ(length)` (with the division-by-zero
convention this also covers the zero-total case), it is zero when the
total member length is zero, and `total_length` is the sum of member
lengths; in particular, a structure of two 1000mm segments with
confidences 0.8 and 0.9 has `total_length = 2000` and
`overall_confidence = 0.85`. -/
theorem claim_C7_weighted_confidence :
    (∀ (st : WallStructure), st.segments ≠ [] →
      (∀ sg ∈ st.segments, 0 ≤ sg.length) →
      (wall_structure_recalculate_properties st).total_length =
        (st.segments.map (fun sg => sg.length)).sum ∧
      (wall_structure_recalculate_properties st).overall_confidence =
        (st.segments.map (fun sg => sg.confidence * sg.length)).sum /
          (st.segments.map (fun sg => sg.length)).sum ∧
      ((st.segments.map (fun sg => sg.length)).sum = 0 →
        (wall_structure_recalculate_properties st).overall_confidence = 0)) ∧
    (c7_structure.total_length = 2000 ∧ c7_structure.overall_confidence = 0.85) := by
  constructor
  · intro st hne hnn
    have htot : 0 ≤ (st.segments.map (fun sg => sg.length)).sum := by
      apply List.sum_nonneg
      intro x hx
      obtain ⟨sg, hsg, rfl⟩ := List.mem_map.mp hx
      exact hnn sg hsg
    obtain ⟨s0, rest, hseg⟩ := List.exists_cons_of_ne_nil hne
    refine ⟨recalc_total_length st s0 rest hseg, ?_, ?_⟩
    · rw [recalc_overall_confidence st s0 rest hseg]
      rcases lt_or_le 0 ((st.segments.map (fun sg => sg.length)).sum) with hpos | hle
      · rw [if_pos hpos]
      · have hzero : (st.segments.map (fun sg => sg.length)).sum = 0 :=
          le_antisymm hle htot
        rw [if_neg (by rw [hzero]; norm_num), hzero, div_zero]
    · intro hz
      rw [recalc_overall_confidence st s0 rest hseg, if_neg (by rw [hz]; norm_num)]
  · constructor
    · have h1 : c7_structure.total_length = (1000 : ℝ) + (1000 + 0) := rfl
      rw [h1]
      norm_num
    · have h2 : c7_structure.overall_confidence =
          (if 0 < (1000 : ℝ) + (1000 + 0) then
            (0.8 * 1000 + (0.9 * 1000 + 0)) / ((1000 : ℝ) + (1000 + 0))
          else 0) := rfl
      rw [h2, if_pos (by norm_num)]
      norm_num

/-- C7 witness: the weighted-mean formula applied to a concrete
one-member structure. -/
theorem claim_C7_weighted_confidence_witness :
    (wall_structure_recalculate_properties
        { wall_structure_new with segments := [wall_segment_new] }).total_length =
      (([wall_segment_new].map (fun sg => sg.length)).sum) :=
  ((claim_C7_weighted_confidence.1
      { wall_structure_new with segments := [wall_segment_new] }
      (by simp) (by simp [wall_segment_new]))).1

theorem calculate_properties_start_point (s : WallSegment) :
    (wall_segment_calculate_properties s).start_point = s.start_point := by
  simp only [wall_segment_calculate_properties]
  split_ifs <;> rfl

theorem calculate_properties_end_point (s : WallSegment) :
    (wall_segment_calculate_properties s).end_point = s.end_point := by
  simp only [wall_segment_calculate_properties]
  split_ifs <;> rfl

theorem approximate_curve_quadratic (seg : CurvedWallSegment)
    (h : seg.curve_type = CurveType.bezier_quadratic) :
    curved_wall_segment_approximate_curve seg =
      (List.range (max seg.approximation_points 2)).map fun (i : ℕ) =>
        let t : ℝ := (i : ℝ) / ((max seg.approximation_points 2 - 1 : ℕ) : ℝ)
        let u : ℝ := 1 - t
        ⟨ctrunc (u * u * seg.base.start_point.x + 2 * u * t * seg.bezier_control1.x +
            t * t * seg.base.end_point.x),
         ctrunc (u * u * seg.base.start_point.y + 2 * u * t * seg.bezier_control1.y +
            t * t * seg.base.end_point.y),
         ctrunc (u * u * seg.base.start_point.z + 2 * u * t * seg.bezier_control1.z +
            t * t * seg.base.end_point.z),
         seg.base.start_point.unit⟩ := by
  obtain ⟨base, ct, ar, asa, aea, ac, b1, b2, b3, cl, ap⟩ := seg
  replace h : ct = CurveType.bezier_quadratic := h
  subst h
  rfl

/-- C10: for a quadratic Bézier curved segment built from control
points `c1` and `c2`, each sampled approximation point equals
`c1 + t² · (c2 - c1)` coordinatewise (up to the integer truncation of
the C cast back to nanometers) at its parameter `t = i/(n-1)`: because
the middle Bernstein control point coincides with the start anchor,
every sampled point lies on the straight chord between the two supplied
control points, with chord coefficient `t²` in `[0,1]`. -/
theorem claim_C10_bezier_quadratic_chord (seg : CurvedWallSegment)
    (c1 c2 : SmartPoint3D) (i : ℕ)
    (hi : i < max seg.approximation_points 2) :
    ((curved_wall_segment_approximate_curve
        (curved_wall_segment_set_bezier_quadratic seg c1 c2))[i]? =
      some
        ⟨ctrunc ((c1.x : ℝ) +
            ((i : ℝ) / ((max seg.approximation_points 2 - 1 : ℕ) : ℝ)) ^ 2 *
              ((c2.x : ℝ) - (c1.x : ℝ))),
         ctrunc ((c1.y : ℝ) +
            ((i : ℝ) / ((max seg.approximation_points 2 - 1 : ℕ) : ℝ)) ^ 2 *
              ((c2.y : ℝ) - (c1.y : ℝ))),
         ctrunc ((c1.z : ℝ) +
            ((i : ℝ) / ((max seg.approximation_points 2 - 1 : ℕ) : ℝ)) ^ 2 *
              ((c2.z : ℝ) - (c1.z : ℝ))),
         c1.unit⟩) ∧
    0 ≤ ((i : ℝ) / ((max seg.approximation_points 2 - 1 : ℕ) : ℝ)) ^ 2 ∧
    ((i : ℝ) / ((max seg.approximation_points 2 - 1 : ℕ) : ℝ)) ^ 2 ≤ 1 := by
  have hs : (curved_wall_segment_set_bezier_quadratic seg c1 c2).base.start_point = c1 := by
    rw [set_bezier_quadratic_base, calculate_properties_start_point]
  have he : (curved_wall_segment_set_bezier_quadratic seg c1 c2).base.end_point = c2 := by
    rw [set_bezier_quadratic_base, calculate_properties_end_point]
  have hb : (curved_wall_segment_set_bezier_quadratic seg c1 c2).bezier_control1 = c1 := rfl
  have hap : (curved_wall_segment_set_bezier_quadratic seg c1 c2).approximation_points =
      seg.approximation_points := rfl
  have ht_le : (i : ℝ) / ((max seg.approximation_points 2 - 1 : ℕ) : ℝ) ≤ 1 := by
    apply div_le_one_of_le₀
    · exact_mod_cast Nat.le_sub_one_of_lt hi
    · positivity
  have ht_nonneg : 0 ≤ (i : ℝ) / ((max seg.approximation_points 2 - 1 : ℕ) : ℝ) := by
    positivity
  refine ⟨?_, sq_nonneg _, pow_le_one₀ ht_nonneg ht_le⟩
  have harith : ∀ t a b : ℝ,
      (1 - t) * (1 - t) * a + 2 * (1 - t) * t * a + t * t * b = a + t ^ 2 * (b - a) := by
    intro t a b
    ring
  rw [approximate_curve_quadratic _ rfl, List.getElem?_map]
  rw [hap] at *
  rw [List.getElem?_range hi]
  simp only [Option.map_some', hs, he, hb, harith]

/-- C10 witness: the first sampled point of a concrete quadratic Bézier
segment is its first control point. -/
theorem claim_C10_bezier_quadratic_chord_witness :
    (curved_wall_segment_approximate_curve
        (curved_wall_segment_set_bezier_quadratic curved_wall_segment_new
          ⟨0, 0, 0, ArxUnit.nanometer⟩ ⟨7, 0, 0, ArxUnit.nanometer⟩))[0]? =
      some ⟨0, 0, 0, ArxUnit.nanometer⟩ := by
  have h := (claim_C10_bezier_quadratic_chord curved_wall_segment_new
    ⟨0, 0, 0, ArxUnit.nanometer⟩ ⟨7, 0, 0, ArxUnit.nanometer⟩ 0 (by norm_num)).1
  rw [h]
  norm_num [ctrunc_zero]

theorem approximate_curve_arc (seg : CurvedWallSegment)
    (h : seg.curve_type = CurveType.arc) :
    curved_wall_segment_approximate_curve seg =
      (List.range (max seg.approximation_points 2)).map fun (i : ℕ) =>
        let t : ℝ := (i : ℝ) / ((max seg.approximation_points 2 - 1 : ℕ) : ℝ)
        let angle := seg.arc_start_angle + t * (seg.arc_end_angle - seg.arc_start_angle)
        ⟨seg.arc_center.x + ctrunc (seg.arc_radius * Real.cos angle),
         seg.arc_center.y + ctrunc (seg.arc_radius * Real.sin angle),
         seg.arc_center.z, seg.arc_center.unit⟩ := by
  obtain ⟨base, ct, ar, asa, aea, ac, b1, b2, b3, cl, ap⟩ := seg
  replace h : ct = CurveType.arc := h
  subst h
  rfl

theorem ctrunc_thousand : ctrunc (1000 : ℝ) = 1000 := by
  rw [show (1000 : ℝ) = ((1000 : ℤ) : ℝ) by norm_num, ctrunc_intCast]

/-- The arc of the claim's scenario: center (0,0,0) built in
millimeters, radius 1000 (the header documents the radius field in
millimeters), angles 0 to π/2, sampled with 4 approximation points. -/
def arc_example : CurvedWallSegment :=
  curved_wall_segment_set_arc
    { curved_wall_segment_new with approximation_points := 4 }
    (smart_point_3d_new 0 0 0 ArxUnit.millimeter) 1000 0 (Real.pi / 2)

theorem arc_example_center : arc_example.arc_center = ⟨0, 0, 0, ArxUnit.millimeter⟩ := rfl

theorem arc_example_base : arc_example.base =
    wall_segment_calculate_properties
      { wall_segment_new with
          start_point := ⟨0 + ctrunc (1000 * Real.cos 0), 0 + ctrunc (1000 * Real.sin 0), 0,
            ArxUnit.millimeter⟩
          end_point := ⟨0 + ctrunc (1000 * Real.cos (Real.pi / 2)),
            0 + ctrunc (1000 * Real.sin (Real.pi / 2)), 0, ArxUnit.millimeter⟩ } := rfl

theorem arc_example_start_point :
    arc_example.base.start_point = ⟨1000, 0, 0, ArxUnit.millimeter⟩ := by
  rw [arc_example_base, calculate_properties_start_point, Real.cos_zero, Real.sin_zero,
    mul_one, mul_zero, ctrunc_thousand, ctrunc_zero]
  rfl

theorem arc_example_end_point :
    arc_example.base.end_point = ⟨0, 1000, 0, ArxUnit.millimeter⟩ := by
  rw [arc_example_base, calculate_properties_end_point, Real.cos_pi_div_two,
    Real.sin_pi_div_two, mul_zero, mul_one, ctrunc_thousand, ctrunc_zero]
  rfl

/-- C1: evaluating the arc scenario of the claim.  The base segment's
endpoints are indeed the circle evaluated at the start and end angles,
and the 4-point sampling hits them at `t = 0` and `t = 1`; but because
`set_arc` adds the `radius * cos/sin` products (radius documented in
millimeters) directly to nanometer coordinates, the first sampled point
is (1000, 0, 0) *nanometers* — 0.001 mm, not the 1000 mm the claim
expects — and the last is (0, 1000, 0) nanometers. -/
theorem claim_C1_arc_radius_unit_mismatch :
    arc_example.base.start_point = ⟨1000, 0, 0, ArxUnit.millimeter⟩ ∧
    arc_example.base.end_point = ⟨0, 1000, 0, ArxUnit.millimeter⟩ ∧
    (curved_wall_segment_approximate_curve arc_example).length = 4 ∧
    (curved_wall_segment_approximate_curve arc_example)[0]? =
      some ⟨1000, 0, 0, ArxUnit.millimeter⟩ ∧
    (curved_wall_segment_approximate_curve arc_example)[3]? =
      some ⟨0, 1000, 0, ArxUnit.millimeter⟩ ∧
    smart_point_3d_to_millimeters ⟨1000, 0, 0, ArxUnit.millimeter⟩ =
      (1 / 1000, 0, 0) := by
  have hst : arc_example.arc_start_angle = 0 := rfl
  have hen : arc_example.arc_end_angle = Real.pi / 2 := rfl
  have hrad : arc_example.arc_radius = 1000 := rfl
  have hap : max arc_example.approximation_points 2 = 4 := rfl
  have happrox := approximate_curve_arc arc_example rfl
  rw [hap, hst, hen, hrad, arc_example_center] at happrox
  refine ⟨arc_example_start_point, arc_example_end_point, ?_, ?_, ?_, ?_⟩
  · rw [happrox]
    simp
  · rw [happrox, List.getElem?_map, List.getElem?_range (by norm_num : (0 : ℕ) < 4)]
    simp only [Option.map_some']
    norm_num [ctrunc_thousand, ctrunc_zero]
  · rw [happrox, List.getElem?_map, List.getElem?_range (by norm_num : (3 : ℕ) < 4)]
    simp only [Option.map_some']
    norm_num [ctrunc_thousand, ctrunc_zero, Real.cos_pi_div_two, Real.sin_pi_div_two]
  · simp [smart_point_3d_to_millimeters, convert_from_nanometers, conversionFactor]
    norm_num

end

end ArxWall
